import Mathlib

/-!
Verification development for the gapir replay `Interpreter`
(src/gapir/cc/interpreter.h).

The interpreter is a stack-based virtual machine over a 32-bit opcode
encoding.  This file shallowly embeds the declarations and inline bodies
of `interpreter.h` and, where a body lives in a translation unit that is
not part of the sources (interpreter.cpp, base_type.h/.cpp), models the
missing part from the design document; every such definition is marked
`Modelled from the spec:` in its doc comment.

Machine addresses (`const void*`) are modelled as natural numbers with
`0` playing the role of `nullptr`.  The memory manager is the black-box
address oracle of the design document: an arbitrary quadruple of boolean
classification functions.
-/

namespace Gapir

/-- Addresses: `const void*` modelled as a natural number; `0` is `nullptr`. -/
abbrev Addr := Nat

/-- Modelled from the spec: the memory manager (`MemoryManager`, not under
src/) is the black-box address oracle of section 2/6 with the four
classification operations named in the construction contract. -/
structure MemoryManager where
  isConstantAddressWithSize : Addr → Nat → Bool
  isVolatileAddressWithSize : Addr → Nat → Bool
  isConstantAddress : Addr → Bool
  isNotObservedAbsoluteAddress : Addr → Bool

/-! ### Base types

`base_type.h` is not under src/; the base-type vocabulary is modelled from
the spec (section 3 and the glossary). -/

/-- Modelled from the spec: the operand base-type tags (glossary: integer
widths, floats, pointer kinds). `base_type.h` is not under src/. -/
inductive BaseType where
  | Bool
  | Int8
  | Int16
  | Int32
  | Int64
  | Uint8
  | Uint16
  | Uint32
  | Uint64
  | Float
  | Double
  | AbsolutePointer
  | ConstantPointer
  | VolatilePointer
deriving DecidableEq, Repr

/-- Modelled from the spec: `sizeof(void*)` on the (64-bit) replay device. -/
def POINTER_SIZE : Nat := 8

/-- Modelled from the spec: which base-type tags are pointer kinds. -/
def isPointerType : BaseType → Bool
  | .AbsolutePointer => true
  | .ConstantPointer => true
  | .VolatilePointer => true
  | _ => false

/-- Modelled from the spec: the nominal element size of each base type.
Pointer tags carry the capture-time nominal width (4 bytes), which - as
section 4.5 stresses by requiring pointer ranges to be classified at
pointer width "regardless of their nominal element type" - differs from
`POINTER_SIZE` on the replay device. -/
def baseTypeSize : BaseType → Nat
  | .Bool => 1
  | .Int8 => 1
  | .Uint8 => 1
  | .Int16 => 2
  | .Uint16 => 2
  | .Int32 => 4
  | .Uint32 => 4
  | .Float => 4
  | .Int64 => 8
  | .Uint64 => 8
  | .Double => 8
  | .AbsolutePointer => 4
  | .ConstantPointer => 4
  | .VolatilePointer => 4

/-! ### Address classification (inline bodies in src/gapir/cc/interpreter.h) -/

/-- `Interpreter::isConstantAddressForType`: the computed size (pointer
width for pointer kinds, nominal size otherwise) is passed to the oracle's
constant-range classifier.  Direct translation of the inline body. -/
def isConstantAddressForType (m : MemoryManager) (address : Addr) (type : BaseType) : Bool :=
  let size := if isPointerType type then POINTER_SIZE else baseTypeSize type
  m.isConstantAddressWithSize address size

/-- `Interpreter::isVolatileAddressForType`: the body computes `size`
exactly as the constant-range check does, but then passes
`baseTypeSize type` - not `size` - to the oracle's volatile-range
classifier.  Direct translation of the inline body, dead store included. -/
def isVolatileAddressForType (m : MemoryManager) (address : Addr) (type : BaseType) : Bool :=
  let size := if isPointerType type then POINTER_SIZE else baseTypeSize type
  m.isVolatileAddressWithSize address (baseTypeSize type)

/-- `Interpreter::isReadAddress`: non-null and not flagged unobserved.
Direct translation of the inline body. -/
def isReadAddress (m : MemoryManager) (address : Addr) : Bool :=
  address != 0 && !(m.isNotObservedAbsoluteAddress address)

/-- `Interpreter::isWriteAddress`: non-null, not flagged unobserved, and
not constant.  Direct translation of the inline body. -/
def isWriteAddress (m : MemoryManager) (address : Addr) : Bool :=
  address != 0 && !(m.isNotObservedAbsoluteAddress address) &&
    !(m.isConstantAddress address)

/-! ### Opcode bit layout (`enum : uint32_t` in src/gapir/cc/interpreter.h) -/

def TYPE_MASK : Nat := 0x03f00000

def FUNCTION_ID_MASK : Nat := 0x0000ffff

def API_INDEX_MASK : Nat := 0x000f0000

def PUSH_RETURN_MASK : Nat := 0x01000000

def DATA_MASK20 : Nat := 0x000fffff

def DATA_MASK26 : Nat := 0x03ffffff

def API_BIT_SHIFT : Nat := 16

def TYPE_BIT_SHIFT : Nat := 20

def OPCODE_BIT_SHIFT : Nat := 26

/-- Bits consumed by the `>>> OPCODE_BIT_SHIFT` instruction-code decode on
a 32-bit word: the 6 most significant bits.  Derived constant (not itself
named in the header, where the field is reached purely by the shift). -/
def OPCODE_MASK : Nat := 0xfc000000

/-- Modelled from the spec: `Interpreter::extract20bitData` (body in
interpreter.cpp, not under src/); header comment and section 4.1: the
masked 20 least significant bits, zero-extended. -/
def extract20bitData (opcode : Nat) : Nat :=
  opcode &&& DATA_MASK20

/-- Modelled from the spec: `Interpreter::extract26bitData` (body in
interpreter.cpp, not under src/); header comment and section 4.1: the
masked 26 least significant bits, zero-extended. -/
def extract26bitData (opcode : Nat) : Nat :=
  opcode &&& DATA_MASK26

/-- Modelled from the spec: the api-index field of a CALL opcode, bits
16-19 (section 3 wire-contract table), reached through `API_INDEX_MASK`
and `API_BIT_SHIFT` from the header. -/
def extractApiIndex (opcode : Nat) : Nat :=
  (opcode &&& API_INDEX_MASK) >>> API_BIT_SHIFT

/-! ### Instruction codes (`enum class InstructionCode` in interpreter.h) -/

/-- The sixteen instruction codes of `Interpreter::InstructionCode`. -/
inductive InstructionCode where
  | CALL
  | PUSH_I
  | LOAD_C
  | LOAD_V
  | LOAD
  | POP
  | STORE_V
  | STORE
  | RESOURCE
  | POST
  | COPY
  | CLONE
  | STRCPY
  | EXTEND
  | ADD
  | LABEL
deriving DecidableEq, Repr, Fintype

/-- The numeric value of each instruction code, as assigned by the enum in
interpreter.h (CALL = 0 through LABEL = 15). -/
def InstructionCode.code : InstructionCode → Nat
  | .CALL => 0
  | .PUSH_I => 1
  | .LOAD_C => 2
  | .LOAD_V => 3
  | .LOAD => 4
  | .POP => 5
  | .STORE_V => 6
  | .STORE => 7
  | .RESOURCE => 8
  | .POST => 9
  | .COPY => 10
  | .CLONE => 11
  | .STRCPY => 12
  | .EXTEND => 13
  | .ADD => 14
  | .LABEL => 15

/-- Modelled from the spec: the instruction-code decode performed by
`Interpreter::interpret` (interpreter.cpp, not under src/): the top 6 bits
of the word (`>>> OPCODE_BIT_SHIFT`) select one of the 16 enum codes, and
any other value of that field is an unrecognized-instruction error
(section 4.1), here `none`. -/
def instructionCode (opcode : Nat) : Option InstructionCode :=
  let code := opcode >>> OPCODE_BIT_SHIFT
  if code = 0 then some .CALL
  else if code = 1 then some .PUSH_I
  else if code = 2 then some .LOAD_C
  else if code = 3 then some .LOAD_V
  else if code = 4 then some .LOAD
  else if code = 5 then some .POP
  else if code = 6 then some .STORE_V
  else if code = 7 then some .STORE
  else if code = 8 then some .RESOURCE
  else if code = 9 then some .POST
  else if code = 10 then some .COPY
  else if code = 11 then some .CLONE
  else if code = 12 then some .STRCPY
  else if code = 13 then some .EXTEND
  else if code = 14 then some .ADD
  else if code = 15 then some .LABEL
  else none

/-! ### Function ids, function tables and the api registry -/

/-- `FunctionIds::POST_FUNCTION_ID` from interpreter.h. -/
def POST_FUNCTION_ID : Nat := 0xff00

/-- `FunctionIds::RESOURCE_FUNCTION_ID` from interpreter.h. -/
def RESOURCE_FUNCTION_ID : Nat := 0xff01

/-- `FunctionIds::PRINT_STACK_FUNCTION_ID` from interpreter.h. -/
def PRINT_STACK_FUNCTION_ID : Nat := 0xff80

/-- A function table (`FunctionTable`, not under src/): an abstract map
from 16-bit function id to a callable; callables are opaque to the
interpreter and modelled by natural-number handles. -/
abbrev FunctionTable := Nat → Option Nat

/-- The registry-relevant state of an `Interpreter` instance: the owned
builtin table `mBuiltins` and the map `mRendererFunctions` from api index
to the externally owned renderer table (both fields of the class in
interpreter.h). -/
structure InterpState where
  mBuiltins : FunctionTable
  mRendererFunctions : Nat → Option FunctionTable

/-- Modelled from the spec: the `ApiRequestCallback` contract documented
in interpreter.h - the callback is handed an api index and is expected to
populate the renderer table for that index, returning true exactly when
the request is fulfilled.  `some table` models a fulfilled request
installing `table`; `none` models a declined request. -/
abbrev ApiRequestCallback := Nat → Option FunctionTable

/-- Modelled from the spec: the in-range branch of
`Interpreter::registerApi` (interpreter.cpp, not under src/), section 4.3:
an already-bound api returns success without invoking the callback; an
unbound api invokes the callback once, installing the table it supplies on
success and failing without binding anything when it declines.  The third
component of the result counts callback invocations performed by the call
(instrumentation for the exactly-once contract). -/
def registerApiInRange (cb : ApiRequestCallback) (st : InterpState) (api : Nat) :
    Bool × InterpState × Nat :=
  match st.mRendererFunctions api with
  | some _ => (true, st, 0)
  | none =>
    match cb api with
    | some table =>
      (true,
       { st with mRendererFunctions :=
          fun a => if a = api then some table else st.mRendererFunctions a },
       1)
    | none => (false, st, 1)

/-- Modelled from the spec: `Interpreter::registerApi` (interpreter.cpp,
not under src/), section 4.3: returns false when the api index is outside
the valid range 0-15, otherwise proceeds as `registerApiInRange`. -/
def registerApi (cb : ApiRequestCallback) (st : InterpState) (api : Nat) :
    Bool × InterpState × Nat :=
  if 16 ≤ api then (false, st, 0) else registerApiInRange cb st api

/-- Modelled from the spec: the builtin-range test of CALL resolution
(section 4.4 and the reserved ranges listed in section 6): POST, RESOURCE,
PRINT_STACK, and the reserved block 0xff81-0xffff resolve as builtins. -/
def isBuiltinFunctionId (fid : Nat) : Bool :=
  fid == POST_FUNCTION_ID || fid == RESOURCE_FUNCTION_ID ||
    fid == PRINT_STACK_FUNCTION_ID || (0xff81 ≤ fid && fid ≤ 0xffff)

/-- Which table a CALL resolved its function through. -/
inductive FunctionOrigin where
  | builtin
  | renderer (api : Nat)
deriving DecidableEq, Repr

/-- Modelled from the spec: the function-resolution step of
`Interpreter::call` (interpreter.cpp, not under src/), section 4.4: a
function id in the implementation-defined builtin ranges is looked up in
the interpreter's builtin table; any other id goes through `registerApi`
and then the renderer table bound to the opcode's api index.  Returns the
resolved callable tagged with its origin (or `none` on resolution
failure), together with the possibly-updated interpreter state. -/
def resolveFunction (cb : ApiRequestCallback) (st : InterpState) (opcode : Nat) :
    Option (FunctionOrigin × Nat) × InterpState :=
  let fid := opcode &&& FUNCTION_ID_MASK
  if isBuiltinFunctionId fid then
    ((st.mBuiltins fid).map (fun f => (FunctionOrigin.builtin, f)), st)
  else
    let api := extractApiIndex opcode
    let r := registerApi cb st api
    if r.1 then
      match r.2.1.mRendererFunctions api with
      | some table => ((table fid).map (fun f => (FunctionOrigin.renderer api, f)), r.2.1)
      | none => (none, r.2.1)
    else
      (none, r.2.1)

/-! ### The dispatch loop -/

/-- Modelled from the spec: `Interpreter::run` (interpreter.cpp, not under
src/), section 4.4: the loop dispatches each opcode of the buffer in turn
through `step` (state to success-flag and successor state, the successor
state on failure being the state at the moment of failure); the first
failure is fatal and ends the run with result false, exhausting the buffer
ends it with result true.  Returns the run's boolean result and the final
state. -/
def run {St : Type} (step : St → Nat → Bool × St) : St → List Nat → Bool × St
  | s, [] => (true, s)
  | s, op :: ops =>
    let r := step s op
    if r.1 then run step r.2 ops else (false, r.2)

/-- Modelled from the spec: `Interpreter::interpret` (interpreter.cpp, not
under src/), section 4.4: decode the instruction code and dispatch.  The
machine state is split as `Core × Nat`, the second component being the
`mLabel` field; per the section 4.4 table only LABEL writes the label
state (handler `Interpreter::label`: store the 26-bit data field, always
succeed), so every other handler - abstracted here as `h`, since the
remaining handler bodies are likewise not under src/ - acts on the core
component only.  An unrecognized instruction code is a decode error and
fails the instruction. -/
def interpret {Core : Type} (h : InstructionCode → Core → Nat → Bool × Core)
    (s : Core × Nat) (opcode : Nat) : Bool × (Core × Nat) :=
  match instructionCode opcode with
  | none => (false, s)
  | some .LABEL => (true, (s.1, extract26bitData opcode))
  | some c =>
    let r := h c s.1 opcode
    (r.1, (r.2, s.2))

/-- `Interpreter::getLabel` (inline body in interpreter.h): return the
`mLabel` field. -/
def getLabel {Core : Type} (s : Core × Nat) : Nat :=
  s.2

/-! ### Concrete fixtures used by counterexamples and witnesses -/

/-- An oracle that classifies a range as constant or volatile exactly when
it is queried at pointer width, exposing which size each classification
call passes on. -/
def sizeProbeOracle : MemoryManager where
  isConstantAddressWithSize := fun _ size => size == POINTER_SIZE
  isVolatileAddressWithSize := fun _ size => size == POINTER_SIZE
  isConstantAddress := fun _ => false
  isNotObservedAbsoluteAddress := fun _ => false

/-- An oracle that reports every address (the null address included) as
constant and every address as observed. -/
def allConstantOracle : MemoryManager where
  isConstantAddressWithSize := fun _ _ => false
  isVolatileAddressWithSize := fun _ _ => false
  isConstantAddress := fun _ => true
  isNotObservedAbsoluteAddress := fun _ => false

/-- A registration callback that declines every request. -/
def decliningCallback : ApiRequestCallback := fun _ => none

/-- An interpreter state with one builtin bound at `POST_FUNCTION_ID` and
a renderer table bound at api index 3. -/
def probeInterpState : InterpState where
  mBuiltins := fun fid => if fid = POST_FUNCTION_ID then some 77 else none
  mRendererFunctions := fun api => if api = 3 then some (fun _ => some 99) else none

/-- A step function over `Nat` states that fails exactly on opcode 7 while
accumulating the opcodes it has consumed. -/
def probeStep : Nat → Nat → Bool × Nat := fun s op => (op != 7, s + op)

/-- A trivial family of non-LABEL instruction handlers over a unit core
state: every instruction succeeds and changes nothing. -/
def idleHandlers : InstructionCode → Unit → Nat → Bool × Unit := fun _ c _ => (true, c)

/-! ### Claim C1 -/

/-- Claim C1 (code bug, evaluated at the failing input): for the pointer
type `VolatilePointer` - whose nominal size differs from pointer width -
the constant-range check queries the oracle at pointer width (the probe
oracle, which answers true exactly for pointer-width queries, says true),
but the volatile-range check queries it at the nominal element size
instead (the same probe says false): `Interpreter::isVolatileAddressForType`
computes the pointer-width `size` and then discards it, passing
`baseTypeSize(type)` to `isVolatileAddressWithSize`. -/
theorem volatile_check_ignores_pointer_width :
    isPointerType BaseType.VolatilePointer = true ∧
    baseTypeSize BaseType.VolatilePointer = 4 ∧
    POINTER_SIZE = 8 ∧
    isConstantAddressForType sizeProbeOracle 4096 BaseType.VolatilePointer = true ∧
    isVolatileAddressForType sizeProbeOracle 4096 BaseType.VolatilePointer = false := by
  decide

/-! ### Claim C2 -/

/-- Claim C2, counterexample: the conjunct "a constant address is readable
but not writable" is false as stated - under an oracle reporting the null
address constant (and observed), the address 0 is constant yet
`isReadAddress` rejects it, since an address must be non-null to be
readable. -/
theorem constant_null_address_not_readable :
    allConstantOracle.isConstantAddress 0 = true ∧
    allConstantOracle.isNotObservedAbsoluteAddress 0 = false ∧
    isReadAddress allConstantOracle 0 = false := by
  decide

/-- Claim C2 (amended): `isReadAddress` is true iff the address is
non-null and not flagged unobserved; `isWriteAddress` is true iff it is
additionally not constant; every writable address is readable; a constant
address is never writable; and a non-null constant address that is not
flagged unobserved is readable but not writable. -/
theorem read_write_address_spec (m : MemoryManager) (a : Addr) :
    (isReadAddress m a = true ↔
      a ≠ 0 ∧ m.isNotObservedAbsoluteAddress a = false) ∧
    (isWriteAddress m a = true ↔
      a ≠ 0 ∧ m.isNotObservedAbsoluteAddress a = false ∧
        m.isConstantAddress a = false) ∧
    (isWriteAddress m a = true → isReadAddress m a = true) ∧
    (m.isConstantAddress a = true → isWriteAddress m a = false) ∧
    (a ≠ 0 → m.isNotObservedAbsoluteAddress a = false →
      m.isConstantAddress a = true →
      isReadAddress m a = true ∧ isWriteAddress m a = false) := by
  by_cases h0 : a = 0 <;>
    cases hob : m.isNotObservedAbsoluteAddress a <;>
      cases hca : m.isConstantAddress a <;>
        simp [isReadAddress, isWriteAddress, h0, hob, hca]

/-- Claim C2, witness: at address 5 under the all-constant oracle, the
amended theorem yields readable and not writable. -/
theorem read_write_address_spec_witness :
    isReadAddress allConstantOracle 5 = true ∧
    isWriteAddress allConstantOracle 5 = false :=
  (read_write_address_spec allConstantOracle 5).2.2.2.2
    (by decide) rfl rfl

/-! ### Claim C3 -/

/-- Claim C3: for every 32-bit opcode word, the instruction-code decode
(top 6 bits via `OPCODE_BIT_SHIFT`) yields exactly one of the 16 defined
instruction codes when the field value is 0-15 - the code recovered being
precisely that field value - and reports an unrecognized-instruction error
(`none`) for every other field value; the numeric code assignment is
injective, so no two instruction codes decode from overlapping bit
patterns. -/
theorem instruction_code_decode_spec :
    (∀ op : Nat, op < 2 ^ 32 →
      (op >>> OPCODE_BIT_SHIFT < 16 →
        ∃ c : InstructionCode, instructionCode op = some c ∧
          InstructionCode.code c = op >>> OPCODE_BIT_SHIFT) ∧
      (16 ≤ op >>> OPCODE_BIT_SHIFT → instructionCode op = none)) ∧
    (∀ c₁ c₂ : InstructionCode,
      InstructionCode.code c₁ = InstructionCode.code c₂ → c₁ = c₂) := by
  constructor
  · intro op _
    constructor
    · intro hlt
      simp only [instructionCode]
      generalize hk : op >>> OPCODE_BIT_SHIFT = k at hlt ⊢
      interval_cases k <;> decide
    · intro hge
      simp only [instructionCode]
      generalize hk : op >>> OPCODE_BIT_SHIFT = k at hge ⊢
      repeat rw [if_neg (by omega)]
  · decide

/-- Claim C3, witness: the word 0x3C00002A (top-6-bit field 15) decodes to
LABEL, and the unrecognized branch is vacuous for it. -/
theorem instruction_code_decode_spec_witness :
    ((0x3C00002A : Nat) >>> OPCODE_BIT_SHIFT < 16 →
      ∃ c : InstructionCode, instructionCode 0x3C00002A = some c ∧
        InstructionCode.code c = (0x3C00002A : Nat) >>> OPCODE_BIT_SHIFT) ∧
    (16 ≤ (0x3C00002A : Nat) >>> OPCODE_BIT_SHIFT →
      instructionCode 0x3C00002A = none) :=
  instruction_code_decode_spec.1 0x3C00002A (by norm_num)

/-! ### Claim C4 -/

/-- Claim C4: the decoded fields occupy exactly the wire-contract bit
positions (instruction code 26-31, type 20-25, 26-bit data 0-25, 20-bit
data 0-19, api index 16-19, push-return flag 24, function id 0-15); for
each instruction class the fields it uses are pairwise disjoint (the CALL
class: code, api index, push-return, function id; the typed class: code,
type, 20-bit data; the plain-data class: code, 26-bit data); and on a
32-bit word the instruction-code decode reads only the bits of
`OPCODE_MASK`. -/
theorem opcode_field_layout :
    (∀ i : Fin 32,
      (OPCODE_MASK.testBit i.val = decide (26 ≤ i.val)) ∧
      (TYPE_MASK.testBit i.val = decide (20 ≤ i.val ∧ i.val ≤ 25)) ∧
      (DATA_MASK26.testBit i.val = decide (i.val ≤ 25)) ∧
      (DATA_MASK20.testBit i.val = decide (i.val ≤ 19)) ∧
      (API_INDEX_MASK.testBit i.val = decide (16 ≤ i.val ∧ i.val ≤ 19)) ∧
      (PUSH_RETURN_MASK.testBit i.val = decide (i.val = 24)) ∧
      (FUNCTION_ID_MASK.testBit i.val = decide (i.val ≤ 15))) ∧
    (OPCODE_MASK &&& API_INDEX_MASK = 0 ∧ OPCODE_MASK &&& PUSH_RETURN_MASK = 0 ∧
      OPCODE_MASK &&& FUNCTION_ID_MASK = 0 ∧ API_INDEX_MASK &&& PUSH_RETURN_MASK = 0 ∧
      API_INDEX_MASK &&& FUNCTION_ID_MASK = 0 ∧ PUSH_RETURN_MASK &&& FUNCTION_ID_MASK = 0) ∧
    (OPCODE_MASK &&& TYPE_MASK = 0 ∧ OPCODE_MASK &&& DATA_MASK20 = 0 ∧
      TYPE_MASK &&& DATA_MASK20 = 0) ∧
    (OPCODE_MASK &&& DATA_MASK26 = 0) ∧
    (∀ op : Nat, op < 2 ^ 32 →
      op >>> OPCODE_BIT_SHIFT = (op &&& OPCODE_MASK) >>> OPCODE_BIT_SHIFT) := by
  refine ⟨by decide, by decide, by decide, by decide, ?_⟩
  intro op hop
  have hmask : op &&& OPCODE_MASK = (op >>> 26) <<< 26 := by
    apply Nat.eq_of_testBit_eq
    intro i
    rw [Nat.testBit_and, Nat.testBit_shiftLeft, Nat.testBit_shiftRight,
        show OPCODE_MASK = 2 ^ 26 * (2 ^ 6 - 1) by decide,
        Nat.testBit_mul_pow_two, Nat.testBit_two_pow_sub_one]
    by_cases hi : 26 ≤ i
    · by_cases hi32 : i < 32
      · rw [show 26 + (i - 26) = i by omega]
        simp [hi, show i - 26 < 6 by omega, Bool.and_comm]
      · have hf : op.testBit i = false :=
          Nat.testBit_lt_two_pow
            (lt_of_lt_of_le hop (Nat.pow_le_pow_right (by norm_num) (by omega)))
        rw [show 26 + (i - 26) = i by omega]
        simp [hf]
    · simp [hi]
  rw [hmask, Nat.shiftLeft_eq]
  simp only [Nat.shiftRight_eq_div_pow, show OPCODE_BIT_SHIFT = 26 from rfl]
  rw [Nat.mul_div_cancel _ (by positivity)]

/-- Claim C4, witness: the instruction-code decode of the concrete 32-bit
word 0xABCD1234 indeed reads only the `OPCODE_MASK` bits. -/
theorem opcode_field_layout_witness :
    (0xABCD1234 : Nat) >>> OPCODE_BIT_SHIFT =
      ((0xABCD1234 : Nat) &&& OPCODE_MASK) >>> OPCODE_BIT_SHIFT :=
  opcode_field_layout.2.2.2.2 0xABCD1234 (by norm_num)

/-! ### Claim C5 -/

/-- Claim C5: if the handler for the opcode at some position of the stream
fails, `run` returns false immediately with the machine state exactly as
the failing handler left it, and the result does not depend on the opcodes
after that position (none of them is executed); and `run` returns true
precisely when every handler invoked along the stream succeeds. -/
theorem run_first_failure_fatal :
    (∀ (St : Type) (step : St → Nat → Bool × St) (pre : List Nat) (op : Nat)
        (post : List Nat) (s s₁ s₂ : St),
      run step s pre = (true, s₁) → step s₁ op = (false, s₂) →
      run step s (pre ++ op :: post) = (false, s₂)) ∧
    (∀ (St : Type) (step : St → Nat → Bool × St) (s : St) (ops : List Nat),
      (run step s ops).1 = true ↔
        ∀ (pre : List Nat) (op : Nat) (post : List Nat) (s₁ : St),
          ops = pre ++ op :: post → run step s pre = (true, s₁) →
          (step s₁ op).1 = true) := by
  constructor
  · intro St step pre
    induction pre with
    | nil =>
      intro op post s s₁ s₂ h1 h2
      simp only [run, Prod.mk.injEq, true_and] at h1
      subst h1
      simp [run, h2]
    | cons p ps ih =>
      intro op post s s₁ s₂ h1 h2
      simp only [run, List.cons_append] at h1 ⊢
      rcases hr : step s p with ⟨ok, t⟩
      rw [hr] at h1
      cases ok with
      | false => simp at h1
      | true =>
        simp at h1 ⊢
        exact ih op post t s₁ s₂ h1 h2
  · intro St step s ops
    induction ops generalizing s with
    | nil =>
      constructor
      · intro _ pre op post s₁ heq
        exact absurd heq (by simp)
      · intro _
        rfl
    | cons o rest ih =>
      rcases hr : step s o with ⟨ok, t⟩
      cases ok with
      | false =>
        constructor
        · intro habs
          simp only [run] at habs
          rw [hr] at habs
          simp at habs
        · intro hall
          have := hall [] o rest s rfl rfl
          rw [hr] at this
          simp at this
      | true =>
        have hstep : run step s (o :: rest) = run step t rest := by
          simp [run, hr]
        rw [hstep, ih t]
        constructor
        · intro hall pre op post s₁ heq hpre
          rcases pre with _ | ⟨q, qs⟩
          · simp only [List.nil_append] at heq
            cases heq
            simp only [run, Prod.mk.injEq, true_and] at hpre
            subst hpre
            rw [hr]
          · simp only [List.cons_append, List.cons.injEq] at heq
            rcases heq with ⟨hq, hrest⟩
            subst hq
            simp only [run] at hpre
            rw [hr] at hpre
            simp at hpre
            exact hall qs op post s₁ hrest hpre
        · intro hall pre op post s₁ heq hpre
          refine hall (o :: pre) op post s₁ (by rw [heq, List.cons_append]) ?_
          simp [run, hr, hpre]

/-- Claim C5, witness: with the probe step over opcode stream
[1, 2] ++ 7 :: [9], the handlers for 1 and 2 succeed, the handler for 7
fails having accumulated 10, and `run` returns (false, 10) - the trailing
opcode 9 is never consumed. -/
theorem run_first_failure_fatal_witness :
    run probeStep 0 ([1, 2] ++ 7 :: [9]) = (false, 10) :=
  run_first_failure_fatal.1 Nat probeStep [1, 2] 7 [9] 0 3 10 rfl rfl

/-! ### Claim C6 -/

/-- Claim C6: for an api index (valid range 0-15, section 3): if the api
already has a bound renderer table, `registerApi` returns true with the
state unchanged and the callback not invoked (invocation count 0); if the
api is unbound, the callback is invoked exactly once (count 1), and when
it declines, `registerApi` returns false with the registry entry of that
api still unbound and the state unchanged. -/
theorem register_api_contract (cb : ApiRequestCallback) (st : InterpState)
    (api : Nat) (hapi : api < 16) :
    ((∃ t, st.mRendererFunctions api = some t) →
      registerApi cb st api = (true, st, 0)) ∧
    (st.mRendererFunctions api = none →
      (registerApi cb st api).2.2 = 1 ∧
      (cb api = none →
        (registerApi cb st api).1 = false ∧
        (registerApi cb st api).2.1 = st ∧
        (registerApi cb st api).2.1.mRendererFunctions api = none)) := by
  unfold registerApi
  rw [if_neg (by omega)]
  unfold registerApiInRange
  constructor
  · rintro ⟨t, ht⟩
    rw [ht]
  · intro hnone
    rw [hnone]
    cases hcb : cb api with
    | none => exact ⟨rfl, fun _ => ⟨rfl, rfl, hnone⟩⟩
    | some table =>
      refine ⟨rfl, fun habs => ?_⟩
      simp at habs

/-- Claim C6, witness: under the declining callback, registering the
already-bound api 3 of the probe state succeeds with no callback
invocation; registering the unbound api 5 invokes the callback once and
fails, leaving api 5 unbound. -/
theorem register_api_contract_witness :
    registerApi decliningCallback probeInterpState 3 = (true, probeInterpState, 0) ∧
    (registerApi decliningCallback probeInterpState 5).2.2 = 1 ∧
    (registerApi decliningCallback probeInterpState 5).1 = false ∧
    (registerApi decliningCallback probeInterpState 5).2.1.mRendererFunctions 5 = none :=
  ⟨(register_api_contract decliningCallback probeInterpState 3 (by norm_num)).1
      ⟨_, rfl⟩,
   ((register_api_contract decliningCallback probeInterpState 5 (by norm_num)).2 rfl).1,
   (((register_api_contract decliningCallback probeInterpState 5 (by norm_num)).2 rfl).2 rfl).1,
   (((register_api_contract decliningCallback probeInterpState 5 (by norm_num)).2 rfl).2 rfl).2.2⟩

/-! ### Claim C7 -/

/-- Claim C7: a CALL opcode whose decoded 16-bit function id lies in the
implementation-defined builtin ranges (POST 0xff00, RESOURCE 0xff01,
PRINT_STACK 0xff80, or the reserved block 0xff81-0xffff) resolves through
the interpreter's builtin table - with the interpreter state untouched -
even when a renderer table is registered for the opcode's api index. -/
theorem call_builtin_resolution (cb : ApiRequestCallback) (st : InterpState)
    (op : Nat) (tbl : FunctionTable)
    (hfid : op &&& FUNCTION_ID_MASK = POST_FUNCTION_ID ∨
      op &&& FUNCTION_ID_MASK = RESOURCE_FUNCTION_ID ∨
      op &&& FUNCTION_ID_MASK = PRINT_STACK_FUNCTION_ID ∨
      (0xff81 ≤ op &&& FUNCTION_ID_MASK ∧ op &&& FUNCTION_ID_MASK ≤ 0xffff))
    (_hreg : st.mRendererFunctions (extractApiIndex op) = some tbl) :
    resolveFunction cb st op =
      ((st.mBuiltins (op &&& FUNCTION_ID_MASK)).map
        (fun f => (FunctionOrigin.builtin, f)), st) := by
  have hb : isBuiltinFunctionId (op &&& FUNCTION_ID_MASK) = true := by
    simp only [isBuiltinFunctionId, Bool.or_eq_true, beq_iff_eq, Bool.and_eq_true,
      decide_eq_true_eq]
    tauto
  simp only [resolveFunction]
  rw [if_pos hb]

/-- Claim C7, witness: opcode 0x0003ff00 (api index 3, function id POST)
resolves through the builtin table of the probe state - which has a
renderer table registered at api 3 - to the builtin handle 77. -/
theorem call_builtin_resolution_witness :
    resolveFunction decliningCallback probeInterpState 0x0003ff00 =
      ((probeInterpState.mBuiltins (0x0003ff00 &&& FUNCTION_ID_MASK)).map
        (fun f => (FunctionOrigin.builtin, f)), probeInterpState) ∧
    (probeInterpState.mBuiltins (0x0003ff00 &&& FUNCTION_ID_MASK)).map
        (fun f => (FunctionOrigin.builtin, f)) = some (FunctionOrigin.builtin, 77) :=
  ⟨call_builtin_resolution decliningCallback probeInterpState 0x0003ff00
      (fun _ => some 99) (Or.inl (by decide)) rfl,
   rfl⟩

/-! ### Claim C8 -/

/-- Helper: dispatching any instruction other than LABEL (a decode error
included) leaves the `mLabel` component of the state unchanged. -/
theorem interpret_preserves_label {Core : Type}
    (h : InstructionCode → Core → Nat → Bool × Core) (s : Core × Nat) (o : Nat)
    (ho : instructionCode o ≠ some InstructionCode.LABEL) :
    ((interpret h s o).2).2 = s.2 := by
  unfold interpret
  rcases hc : instructionCode o with _ | c
  · rfl
  · cases c <;> first | exact absurd hc ho | rfl

/-- Helper: a run over a stream containing no LABEL opcode leaves the
`mLabel` component of the state unchanged, whether it succeeds or not. -/
theorem run_preserves_label {Core : Type}
    (h : InstructionCode → Core → Nat → Bool × Core) :
    ∀ (rest : List Nat) (t : Core × Nat),
      (∀ o ∈ rest, instructionCode o ≠ some InstructionCode.LABEL) →
      ((run (interpret h) t rest).2).2 = t.2 := by
  intro rest
  induction rest with
  | nil => intro t _; rfl
  | cons o os ih =>
    intro t hall
    simp only [run]
    have hpres : ((interpret h t o).2).2 = t.2 :=
      interpret_preserves_label h t o (hall o (by simp))
    cases hok : (interpret h t o).1 with
    | false =>
      rw [if_neg (by simp)]
      exact hpres
    | true =>
      rw [if_pos rfl, ih ((interpret h t o).2) (fun x hx => hall x (by simp [hx]))]
      exact hpres

/-- Claim C8: a LABEL opcode always succeeds and sets the label state to
exactly its 26-bit data field; `getLabel` then returns that value, and the
value is still observable after running any further LABEL-free opcodes,
whether or not that run fails. -/
theorem label_instruction_spec (Core : Type)
    (h : InstructionCode → Core → Nat → Bool × Core) (s : Core × Nat) (op : Nat)
    (hop : instructionCode op = some InstructionCode.LABEL) :
    interpret h s op = (true, (s.1, extract26bitData op)) ∧
    getLabel (interpret h s op).2 = extract26bitData op ∧
    ∀ rest : List Nat,
      (∀ o ∈ rest, instructionCode o ≠ some InstructionCode.LABEL) →
      getLabel (run (interpret h) (interpret h s op).2 rest).2 =
        extract26bitData op := by
  have h1 : interpret h s op = (true, (s.1, extract26bitData op)) := by
    unfold interpret
    rw [hop]
  refine ⟨h1, by rw [h1]; rfl, ?_⟩
  intro rest hrest
  rw [h1]
  exact run_preserves_label h rest (s.1, extract26bitData op) hrest

/-- Claim C8, witness: the LABEL word 0x3C00002A (data field 42) under the
idle handlers sets the label to 42; running on into the unrecognized word
0x40000000 fails the run yet leaves `getLabel` at 42. -/
theorem label_instruction_spec_witness :
    interpret idleHandlers ((), 0) 0x3C00002A = (true, ((), 42)) ∧
    getLabel (run (interpret idleHandlers) ((), 42) [0x40000000]).2 = 42 ∧
    run (interpret idleHandlers) ((), 42) [0x40000000] = (false, ((), 42)) :=
  ⟨(label_instruction_spec Unit idleHandlers ((), 0) 0x3C00002A (by decide)).1,
   (label_instruction_spec Unit idleHandlers ((), 0) 0x3C00002A (by decide)).2.2
      [0x40000000] (by decide),
   rfl⟩

/-! ### Claim C9 -/

/-- Claim C9: the api index decoded from any opcode word (bits 16-19) is
strictly less than 16, so for a decoded api index `registerApi` always
takes its in-range path: the out-of-valid-range failure branch is
unreachable from decoded CALL opcodes. -/
theorem decoded_api_index_in_range :
    ∀ (op : Nat) (cb : ApiRequestCallback) (st : InterpState),
      extractApiIndex op < 16 ∧
      registerApi cb st (extractApiIndex op) =
        registerApiInRange cb st (extractApiIndex op) := by
  intro op cb st
  have hlt : extractApiIndex op < 16 := by
    have hle : op &&& API_INDEX_MASK ≤ API_INDEX_MASK := Nat.and_le_right
    unfold API_INDEX_MASK at hle
    unfold extractApiIndex API_INDEX_MASK API_BIT_SHIFT
    rw [Nat.shiftRight_eq_div_pow]
    omega
  exact ⟨hlt, by unfold registerApi; rw [if_neg (by omega)]⟩

/-! ### Claim C10 -/

/-- Claim C10: the 26-bit data field is the disjoint union of the type
field and the 20-bit data field - `TYPE_MASK` and `DATA_MASK20` are
disjoint and their union is `DATA_MASK26` - and consequently
`extract26bitData` of any word equals the raw type-field bits of the word
shifted back up to bits 20-25, plus `extract20bitData` of the word. -/
theorem data26_field_decomposition :
    TYPE_MASK &&& DATA_MASK20 = 0 ∧
    (TYPE_MASK ||| DATA_MASK20) = DATA_MASK26 ∧
    ∀ op : Nat,
      extract26bitData op =
        (((op &&& TYPE_MASK) >>> TYPE_BIT_SHIFT) <<< TYPE_BIT_SHIFT) +
          extract20bitData op := by
  refine ⟨by decide, by decide, ?_⟩
  intro op
  have h2 : op &&& TYPE_MASK = 2 ^ 20 * ((op >>> 20) &&& (2 ^ 6 - 1)) := by
    apply Nat.eq_of_testBit_eq
    intro i
    rw [Nat.testBit_and, show TYPE_MASK = 2 ^ 20 * (2 ^ 6 - 1) by decide,
        Nat.testBit_mul_pow_two, Nat.testBit_mul_pow_two, Nat.testBit_and,
        Nat.testBit_shiftRight, Nat.testBit_two_pow_sub_one]
    by_cases hi : 20 ≤ i
    · rw [show 20 + (i - 20) = i by omega]
      simp [hi]
    · simp [hi]
  have h1 : ((op &&& TYPE_MASK) >>> TYPE_BIT_SHIFT) <<< TYPE_BIT_SHIFT =
      op &&& TYPE_MASK := by
    rw [h2, Nat.shiftLeft_eq]
    simp only [Nat.shiftRight_eq_div_pow, show TYPE_BIT_SHIFT = 20 from rfl]
    rw [Nat.mul_div_cancel_left _ (by positivity), Nat.mul_comm]
  have h3 : extract20bitData op = op % 2 ^ 20 := by
    rw [extract20bitData, show DATA_MASK20 = 2 ^ 20 - 1 by decide,
        Nat.and_pow_two_sub_one_eq_mod]
  rw [extract26bitData, h1, h3, h2,
      Nat.mul_add_lt_is_or (Nat.mod_lt _ (by positivity)) _]
  apply Nat.eq_of_testBit_eq
  intro i
  rw [Nat.testBit_and, show DATA_MASK26 = 2 ^ 26 - 1 by decide,
      Nat.testBit_two_pow_sub_one, Nat.testBit_or, Nat.testBit_mul_pow_two,
      Nat.testBit_and, Nat.testBit_shiftRight, Nat.testBit_two_pow_sub_one,
      Nat.testBit_mod_two_pow]
  by_cases h20 : i < 20
  · simp [h20, show i < 26 by omega, show ¬ (20 ≤ i) by omega]
  · by_cases h26 : i < 26
    · rw [show 20 + (i - 20) = i by omega]
      simp [h20, h26, show 20 ≤ i by omega, show i - 20 < 6 by omega]
    · rw [show 20 + (i - 20) = i by omega]
      simp [h20, h26, show 20 ≤ i by omega, show ¬ (i - 20 < 6) by omega]

end Gapir
